import Mathlib

/-!
Verification of the TripGPT travel-route backend
(`backend/config/api/views.py`): the `tmap_geocode` helper and the
`TravelAPIView.get` request handler, shallowly embedded as total Lean
functions.  Upstream HTTP calls are represented by an environment `Env`
holding the (stubbed) outcome of each call; a Python exception anywhere
inside one of the `try` blocks is the `.err` constructor.  Machine
arithmetic: provider totals are nonnegative JSON integers, modelled as
`Nat`; the one-decimal `round(x, 1)` on a metre count is modelled exactly
as round-half-to-even of `meters / 100`, yielding the distance in tenths
of a kilometre (`distance_km10`), and float formatting `f"{x}"` of such a
one-decimal value is modelled by `fmt1`.
-/

set_option autoImplicit false

namespace TripGPT

/-- A JSON scalar as it can appear in a Tmap POI field: null, a string or
a number.  (Coordinates arrive from the provider as decimal strings, but
numbers and nulls are tolerated just as Python does.) -/
inductive JVal where
  | jnull
  | jstr (s : String)
  | jnum (q : ℚ)
  deriving DecidableEq, Repr

/-- Python truthiness of a `JVal`: `None`, `""` and `0` are falsy. -/
def JVal.truthy : JVal → Bool
  | .jnull => false
  | .jstr s => !(s = "")
  | .jnum q => !(q = 0)

/-- The value of a Python chain `a or b or c or ...` over optional dict
lookups (`poi0.get(k)` is `none` when the key is absent): the first
truthy value wins; if none is truthy the last operand is returned. -/
def orChain : List (Option JVal) → Option JVal
  | [] => none
  | [x] => x
  | none :: rest => orChain rest
  | some v :: rest => if v.truthy then some v else orChain rest

/-- All-digit character list to its numeral value; `none` if empty or a
non-digit occurs. -/
def digitsToNat : List Char → Option ℕ
  | [] => none
  | cs => cs.foldl (fun acc c => acc.bind fun n =>
      if c.isDigit then some (10 * n + (c.toNat - 48)) else none) (some 0)

/-- Split a character list at the first `'.'`; `none` when no dot. -/
def splitAtDot : List Char → Option (List Char × List Char)
  | [] => none
  | c :: cs =>
    if c = '.' then some ([], cs)
    else (splitAtDot cs).map (fun p => (c :: p.1, p.2))

/-- Plain decimal numeral parser: `":digits:"` or `":digits:.:digits:"`.
Models Python `float(...)` on the numeral strings the POI provider sends;
on anything else (e.g. the empty string) the conversion fails, which in
the source raises `ValueError` inside the `try` and is caught. -/
def parseDecimal (s : String) : Option ℚ :=
  match splitAtDot s.toList with
  | none => (digitsToNat s.toList).map (fun n => (n : ℚ))
  | some (w, f) =>
    match digitsToNat w, digitsToNat f with
    | some a, some b => some ((a : ℚ) + (b : ℚ) / ((10 : ℚ) ^ f.length))
    | _, _ => none

/-- Python `float(v)` on a JSON scalar: numbers pass through, numeral
strings are parsed, `None` (a `TypeError`) and unparsable strings fail. -/
def pyFloat : JVal → Option ℚ
  | .jnull => none
  | .jstr s => parseDecimal s
  | .jnum q => some q

/-- The first (provider-ranked) POI of a Tmap POI search response: the
eight coordinate-bearing fields, each possibly absent. -/
structure Poi where
  frontLat : Option JVal
  frontlat : Option JVal
  noorLat : Option JVal
  lat : Option JVal
  frontLon : Option JVal
  frontlon : Option JVal
  noorLon : Option JVal
  lon : Option JVal
  deriving DecidableEq, Repr

/-- Outcome of one Tmap POI search HTTP call, as seen by `tmap_geocode`:
`fail` is any exception (network error, non-2xx status via
`raise_for_status`, body parse error); `noSpi` a body without a truthy
`searchPoiInfo`; `noPois` one without a truthy `pois.poi` list;
`withPoi p` a body whose first POI is `p` (a single dict and a list are
treated alike by the source). -/
inductive GeoPayload where
  | fail
  | noSpi
  | noPois
  | withPoi (p : Poi)
  deriving DecidableEq, Repr

/-- Embedding of `tmap_geocode(keyword, app_key)` from
`backend/config/api/views.py` lines 12-75, with the HTTP exchange
replaced by its outcome `payload`.  Returns `(lat, lon)` on success. -/
def tmap_geocode (keyword app_key : String) (payload : GeoPayload) :
    Option (ℚ × ℚ) :=
  if keyword = "" ∨ app_key = "" then none
  else
    match payload with
    | .fail => none
    | .noSpi => none
    | .noPois => none
    | .withPoi poi0 =>
      let lat := orChain [poi0.frontLat, poi0.frontlat, poi0.noorLat, poi0.lat]
      let lon := orChain [poi0.frontLon, poi0.frontlon, poi0.noorLon, poi0.lon]
      match lat, lon with
      | some lv, some wv =>
        match pyFloat lv, pyFloat wv with
        | some a, some b => some (a, b)
        | _, _ => none
      | _, _ => none

/-- The spec's reading of the field fallback (claim C8): the first
PRESENT value wins, truthy or not. -/
def firstPresent : List (Option JVal) → Option JVal
  | [] => none
  | some v :: _ => some v
  | none :: rest => firstPresent rest

/-- Variant of `tmap_geocode` as the spec sentence describes the fallback — identical
except that `firstPresent` replaces the Python `or` chain.  Used only to
compare the spec's words with the source. -/
def tmap_geocode_firstPresent (keyword app_key : String)
    (payload : GeoPayload) : Option (ℚ × ℚ) :=
  if keyword = "" ∨ app_key = "" then none
  else
    match payload with
    | .fail => none
    | .noSpi => none
    | .noPois => none
    | .withPoi poi0 =>
      let lat := firstPresent [poi0.frontLat, poi0.frontlat, poi0.noorLat, poi0.lat]
      let lon := firstPresent [poi0.frontLon, poi0.frontlon, poi0.noorLon, poi0.lon]
      match lat, lon with
      | some lv, some wv =>
        match pyFloat lv, pyFloat wv with
        | some a, some b => some (a, b)
        | _, _ => none
      | _, _ => none

/-- Round-half-to-even of `n / 100` (the exact value of Python
`round(n / 1000, 1)` expressed in tenths of the unit). -/
def roundTenths (n : ℕ) : ℕ :=
  let q := n / 100
  let r := n % 100
  if r < 50 then q
  else if 50 < r then q + 1
  else if q % 2 = 0 then q else q + 1

/-- Render a tenths-scaled value the way Python prints the corresponding
one-decimal float: `235 ↦ "23.5"`, `0 ↦ "0.0"`, `20 ↦ "2.0"`. -/
def fmt1 (n : ℕ) : String :=
  let w := n / 10
  let f := n % 10
  s!"{w}.{f}"

example : roundTenths 23456 = 235 := by decide
example : roundTenths 0 = 0 := by decide
example : fmt1 235 = "23.5" := by rfl
example : (parseDecimal "37.5").isSome = true := by decide
example : parseDecimal "" = none := by decide
example : (tmap_geocode "A" "k"
    (.withPoi ⟨none, none, some (.jstr "37.5"), none,
               none, none, some (.jstr "127.25"), none⟩)).isSome = true := by
  decide
example : tmap_geocode "A" "k"
    (.withPoi ⟨none, none, some (.jnum 37), none,
               none, none, some (.jnum 127), none⟩)
    = some (37, 127) := rfl

/-! ## Data shapes produced by `TravelAPIView.get` -/

/-- The weather dict built at lines 192-196: `{"name", "temp", "desc"}`.
A body in which `["main"]["temp"]` or `["weather"][0]` is missing raises
inside the same `try` and is covered by the `err` outcome below. -/
structure Weather where
  name : Option String
  temp : ℚ
  desc : String
  deriving DecidableEq, Repr

/-- One feature of the Tmap driving-route response, flattened to the
fields the handler reads: `properties.totalTime`,
`properties.totalDistance`, `geometry.type` and `geometry.coordinates`
(`(lng, lat)` pairs). An absent field is `none`. -/
structure DriveFeature where
  totalTime : Option ℕ
  totalDistance : Option ℕ
  geomType : Option String
  coordinates : List (ℚ × ℚ)
  deriving DecidableEq, Repr

/-- A `{"lat": .., "lng": ..}` dict appended to `car_path`. -/
structure PathPoint where
  lat : ℚ
  lng : ℚ
  deriving DecidableEq, Repr

/-- One transit leg, flattened to the fields the handler reads:
`mode`, `sectionTime`, `start.name` and `end.name`; `none` when the key
(or, for the names, any level of the access path) is absent. -/
structure Leg where
  mode : Option String
  sectionTime : Option ℕ
  startName : Option String
  endName : Option String
  deriving DecidableEq, Repr

/-- One transit itinerary: the totals and legs the handler reads. -/
structure Itinerary where
  totalTime : Option ℕ
  totalDistance : Option ℕ
  transferCount : Option ℕ
  pathType : Option ℕ
  legs : List Leg
  deriving DecidableEq, Repr

/-- The `car_info` dict: minutes and distance in tenths of a km. -/
structure CarInfo where
  time_min : ℕ
  distance_km10 : ℕ
  deriving DecidableEq, Repr

/-- The `transit_info` dict. -/
structure TransitInfo where
  total_time_min : ℕ
  total_distance_km10 : ℕ
  transfer_count : ℕ
  path_type : Option ℕ
  deriving DecidableEq, Repr

/-- One entry of `transit_steps`. -/
structure TransitStep where
  order : ℕ
  mode : Option String
  mode_ko : Option String
  summary : String
  deriving DecidableEq, Repr

/-- The debug bundle `response` accumulated by the handler and returned
under the `"raw"` key. -/
structure RawBundle where
  kakao_js_key : String
  departure : String
  destination : String
  mode : String
  weather : Option Weather
  car_info : Option CarInfo
  transit_info : Option TransitInfo
  car_path : List PathPoint
  transit_steps : List TransitStep
  errors : List String
  deriving DecidableEq, Repr

/-- Outcome of one upstream HTTP call: `ok` carries the parsed data the
handler goes on to read, `err` is any exception raised inside the
corresponding `try` block (network error, timeout, non-2xx status via
`raise_for_status`, parse error). -/
inductive UpstreamResult (α : Type) where
  | ok (val : α)
  | err
  deriving DecidableEq, Repr

/-- The three environment-variable credentials read at lines 93-95
(absent variables read as `""` via `os.environ.get(_, "")`). -/
structure Keys where
  tmap : String
  kakao : String
  openweather : String
  deriving DecidableEq, Repr

/-- The request's query parameters (`none` = parameter absent). -/
structure Req where
  origin : Option String
  departure : Option String
  destination : Option String
  mode : Option String
  deriving DecidableEq, Repr

/-- Stubbed outcomes of the four upstream calls one request can make.
The drive payload is the `features` list, the transit payload the
`metaData.plan.itineraries` list (absent nesting levels collapse to `[]`
by the chained `.get(_, {})` defaults, which `ok []` covers). -/
structure Env where
  depPayload : GeoPayload
  destPayload : GeoPayload
  weather : UpstreamResult Weather
  drive : UpstreamResult (List DriveFeature)
  transit : UpstreamResult (List Itinerary)
  deriving DecidableEq, Repr

/-- The handler's result before JSON rendering: the three shaped fields
plus the debug bundle. -/
structure Res where
  duration : Option String
  distance : Option String
  steps : List String
  raw : RawBundle
  deriving DecidableEq, Repr

/-- A JSON value of the response body. -/
inductive RVal where
  | null
  | str (s : String)
  | listStr (l : List String)
  | raw (r : RawBundle)
  deriving DecidableEq, Repr

/-! ## The `TravelAPIView.get` handler -/

/-- Python `(a or b)` for an optional query parameter `a` and fallback
`b`: an absent or empty parameter is falsy and yields the fallback. -/
def coalesce (a : Option String) (b : String) : String :=
  match a with
  | some s => if s = "" then b else s
  | none => b

/-- Python `str.strip()`: drop leading and trailing whitespace. -/
def pyStrip (s : String) : String :=
  String.mk
    (((s.data.dropWhile Char.isWhitespace).reverse.dropWhile
        Char.isWhitespace).reverse)

/-- Line 98: `(request.GET.get("origin") or request.GET.get("departure")
or "").strip()`. -/
def resolvedDeparture (req : Req) : String :=
  pyStrip (coalesce req.origin (coalesce req.departure ""))

/-- Line 99: `(request.GET.get("destination") or "").strip()`. -/
def resolvedDestination (req : Req) : String :=
  pyStrip (coalesce req.destination "")

/-- Line 100: `(request.GET.get("mode") or "car").strip()`. -/
def resolvedMode (req : Req) : String :=
  pyStrip (coalesce req.mode "car")

/-- An apostrophe (via its code point, `U+0027`). -/
def apos : String := "\x27"

/-- Line 155/161: the geocode-failure note, the place name wrapped in single quotes. -/
def geoFailMsg (name : String) : String :=
  apos ++ name ++ apos ++ " 좌표 변환 실패"

/-- Lines 132-136: the guidance steps returned when `TMAP_APP_KEY` is
unset. -/
def tmapKeySteps : List String :=
  ["TMAP_APP_KEY가 서버 환경변수에 설정되지 않았습니다.",
   "settings.py 또는 .env에서 TMAP_APP_KEY를 설정해 주세요.",
   "API 키가 설정되면 실제 Tmap 경로가 표시됩니다."]

/-- Lines 176-201: the weather block. Returns the `weather` value and
the error notes it appends: skipped entirely without a key; an exception
anywhere in the block leaves `weather = None` and appends the note. -/
def weatherStage (key : String) (w : UpstreamResult Weather) :
    Option Weather × List String :=
  if key = "" then (none, [])
  else
    match w with
    | .ok v => (some v, [])
    | .err => (none, ["날씨 정보 조회 실패"])

/-- Lines 242-246: collect `(lng, lat)` pairs of every `LineString`
feature, in encounter order, as `{"lat", "lng"}` dicts. -/
def carPathOf (features : List DriveFeature) : List PathPoint :=
  features.foldl
    (fun acc f =>
      if f.geomType = some "LineString" then
        acc ++ f.coordinates.map (fun c => { lat := c.2, lng := c.1 })
      else acc)
    []

/-- Lines 204-250: the driving-route block. On `err` (any exception)
`car_info` and `car_path` stay empty and the note is appended; on a
successful response the first feature's totals (defaulting to `0`)
become `car_info`, an empty `features` list leaves `car_info = None`
with no note. -/
def carStage : UpstreamResult (List DriveFeature) →
    Option CarInfo × List PathPoint × List String
  | .err => (none, [], ["자동차 경로 조회 실패"])
  | .ok features =>
    let ci : Option CarInfo :=
      match features with
      | [] => none
      | f0 :: _ =>
        some { time_min := f0.totalTime.getD 0 / 60,
               distance_km10 := roundTenths (f0.totalDistance.getD 0) }
    (ci, carPathOf features, [])

/-- Lines 303-310: the `mode_ko_map` localization table. -/
def mode_ko_map : List (String × String) :=
  [("WALK", "도보"), ("BUS", "버스"), ("SUBWAY", "지하철"),
   ("EXPRESSBUS", "고속버스"), ("TRAIN", "기차"), ("FERRY", "해운")]

/-- Lines 312-330: one `transit_steps` entry for the leg at (1-based)
position `idx`. `mode_ko = mode_ko_map.get(mode, mode)` is `None` when
the leg has no mode, in which case the f-string renders it as `"None"`;
missing start/end names render as `""`. -/
def legStep (idx : ℕ) (leg : Leg) : TransitStep :=
  let mode_ko := leg.mode.map (fun m => ((mode_ko_map.lookup m).getD m))
  let time_min := leg.sectionTime.getD 0 / 60
  let start_name := leg.startName.getD ""
  let end_name := leg.endName.getD ""
  let mk := mode_ko.getD "None"
  { order := idx, mode := leg.mode, mode_ko := mode_ko,
    summary := s!"{start_name} → {end_name} ({mk}) 약 {time_min}분" }

/-- Lines 312-330 loop: `for idx, leg in enumerate(legs, start=1)` over `legStep`. -/
def transitStepsOf (legs : List Leg) : List TransitStep :=
  legs.enum.map (fun p => legStep (p.1 + 1) p.2)

/-- Lines 256-334: the transit block. `err` is any exception; otherwise
the first itinerary (if any) is shaped, an empty itinerary list leaves
`transit_info = None` with no note. -/
def transitStage : UpstreamResult (List Itinerary) →
    Option TransitInfo × List TransitStep × List String
  | .err => (none, [], ["대중교통 경로 조회 실패"])
  | .ok [] => (none, [], [])
  | .ok (it0 :: _) =>
    let ti : TransitInfo :=
      { total_time_min := it0.totalTime.getD 0 / 60,
        total_distance_km10 := roundTenths (it0.totalDistance.getD 0),
        transfer_count := it0.transferCount.getD 0,
        path_type := it0.pathType }
    (some ti, transitStepsOf it0.legs, [])

/-- Lines 347-353: the `car` shaping branch. -/
def carShape (departure destination : String) (c : CarInfo) :
    String × String × List String :=
  let t := c.time_min
  let k := fmt1 c.distance_km10
  (s!"약 {t}분", s!"{k} km",
   [s!"{departure}에서 출발",
    s!"Tmap 자동차 경로를 따라 이동 (약 {k}km)",
    s!"{destination} 도착"])

/-- Lines 355-358: the `transit` shaping branch. -/
def transitShape (tSteps : List TransitStep) (t : TransitInfo) :
    String × String × List String :=
  let m := t.total_time_min
  let k := fmt1 t.total_distance_km10
  (s!"약 {m}분", s!"{k} km", tSteps.map (fun s => s.summary))

/-- Lines 360-369: the `walk` shaping branch.
`int(distance_km / 4 * 60)` on the exact one-decimal value
`distance_km10 / 10` is `distance_km10 * 15 / 10` (truncation =
floor on these nonnegative values). -/
def walkShape (departure destination : String) (c : CarInfo) :
    String × String × List String :=
  let w := c.distance_km10 * 15 / 10
  let k := fmt1 c.distance_km10
  (s!"약 {w}분", s!"{k} km",
   [s!"{departure}에서 도보 출발",
    s!"약 {k}km 도보 이동",
    s!"{destination} 도착"])

/-- The debug bundle as it stands after the weather, drive and transit
blocks (lines 201, 252-253, 336-337), error notes in append order. -/
def rawOf (departure destination mode : String) (keys : Keys)
    (env : Env) : RawBundle :=
  { kakao_js_key := keys.kakao, departure := departure,
    destination := destination, mode := mode,
    weather := (weatherStage keys.openweather env.weather).1,
    car_info := (carStage env.drive).1,
    transit_info := (transitStage env.transit).1,
    car_path := (carStage env.drive).2.1,
    transit_steps := (transitStage env.transit).2.1,
    errors := (weatherStage keys.openweather env.weather).2 ++
      (carStage env.drive).2.2 ++ (transitStage env.transit).2.2 }

/-- Lines 342-369: the `if mode == .. and .._info:` `elif` chain, as the
`(duration, distance, steps)` triple it produces when one branch fires.
The Python chain is equivalent to dispatching on `mode` first, since at
most one of the three mode-equality tests can hold. -/
def shapedOf (mode departure destination : String) (ci : Option CarInfo)
    (ti : Option TransitInfo) (tSteps : List TransitStep) :
    Option (String × String × List String) :=
  if mode = "car" then ci.map (carShape departure destination)
  else if mode = "transit" then ti.map (transitShape tSteps)
  else if mode = "walk" then ci.map (walkShape departure destination)
  else none

/-- Lines 176-393 after both geocodes succeeded: weather, drive and
transit blocks, then the mode-specific shaping and the final returns
(lines 372-393).  The resolved coordinates feed only the upstream
request bodies (absorbed into `env`) and are observable nowhere in the
response, so they are not parameters here. -/
def mainFlow (departure destination mode : String) (keys : Keys)
    (env : Env) : Res :=
  let raw := rawOf departure destination mode keys env
  match shapedOf mode departure destination (carStage env.drive).1
      (transitStage env.transit).1 (transitStage env.transit).2.1 with
  | none =>
    { duration := none, distance := none, steps := [],
      raw := { raw with errors := raw.errors ++ ["적절한 경로를 찾지 못했습니다."] } }
  | some (du, di, st) =>
    { duration := some du, distance := some di, steps := st, raw := raw }

/-- The body of `TravelAPIView.get` (lines 91-393) on the resolved
parameters: validation, credential check, the two geocode calls, then
`mainFlow`. -/
def travelCore (departure destination mode : String) (keys : Keys)
    (env : Env) : Res :=
  let resp0 : RawBundle :=
    { kakao_js_key := keys.kakao, departure := departure,
      destination := destination, mode := mode,
      weather := none, car_info := none, transit_info := none,
      car_path := [], transit_steps := [], errors := [] }
  if departure = "" ∨ destination = "" then
    { duration := none, distance := none, steps := [],
      raw := { resp0 with errors := ["출발지와 도착지가 필요합니다."] } }
  else if keys.tmap = "" then
    { duration := none, distance := none, steps := tmapKeySteps,
      raw := { resp0 with errors := ["TMAP_APP_KEY가 서버 환경변수에 설정되지 않았습니다."] } }
  else
    match tmap_geocode departure keys.tmap env.depPayload,
          tmap_geocode destination keys.tmap env.destPayload with
    | some _, some _ => mainFlow departure destination mode keys env
    | dc, oc =>
      { duration := none, distance := none, steps := [],
        raw := { resp0 with errors :=
          (match dc with | some _ => [] | none => [geoFailMsg departure]) ++
          (match oc with | some _ => [] | none => [geoFailMsg destination]) } }

/-- Full `TravelAPIView.get` on a raw request: resolve the parameters
(lines 98-100), then run the flow. -/
def travelGet (req : Req) (keys : Keys) (env : Env) : Res :=
  travelCore (resolvedDeparture req) (resolvedDestination req)
    (resolvedMode req) keys env

/-- Render `none` as JSON `null` and `some s` as a string. -/
def optStr : Option String → RVal
  | none => .null
  | some s => .str s

/-- Assemble the HTTP response: every return site of the handler sends
`status.HTTP_200_OK` and the four-key body literal. -/
def renderRes (r : Res) : ℕ × List (String × RVal) :=
  (200,
   [("duration", optStr r.duration), ("distance", optStr r.distance),
    ("steps", .listStr r.steps), ("raw", .raw r.raw)])

/-- The full endpoint: status code and JSON body. -/
def handleGet (req : Req) (keys : Keys) (env : Env) :
    ℕ × List (String × RVal) :=
  renderRes (travelGet req keys env)

/-! ## Concrete fixtures (shared by the witnesses below) -/

/-- A POI that resolves: integral coordinates keep kernel evaluation of
the rational fields trivial. -/
def okPoi : Poi :=
  ⟨some (.jnum 37), none, none, none, some (.jnum 127), none, none, none⟩

/-- Routing key set, the others unset. -/
def baseKeys : Keys := { tmap := "k", kakao := "", openweather := "" }

/-- All three keys set. -/
def allKeys : Keys := { tmap := "k", kakao := "j", openweather := "w" }

/-- Query `origin=한신대&destination=경복궁&mode=car`. -/
def baseReq : Req :=
  { origin := some "한신대", departure := none,
    destination := some "경복궁", mode := some "car" }

/-- A driving feature with the spec's example totals and no geometry. -/
def feat2400 : DriveFeature :=
  { totalTime := some 2400, totalDistance := some 23456,
    geomType := none, coordinates := [] }

/-- Both geocodes succeed, the drive call returns one feature with the
example totals, the transit call returns no itinerary, weather untried
(no key in `baseKeys`). -/
def driveOkEnv : Env :=
  { depPayload := .withPoi okPoi, destPayload := .withPoi okPoi,
    weather := .err, drive := .ok [feat2400], transit := .ok [] }

/-! ## General lemmas about the flow -/

/-- Rounding bound: `roundTenths n` is within half a unit (scaled: 50) of `n / 100`. -/
theorem roundTenths_close (n : ℕ) :
    100 * roundTenths n ≤ n + 50 ∧ n ≤ 100 * roundTenths n + 50 := by
  simp only [roundTenths]
  split
  · omega
  · split
    · omega
    · split <;> omega

/-- Natural division is the floor of the rational division. -/
theorem natCast_div_floor (t k : ℕ) : ⌊(t : ℚ) / (k : ℚ)⌋₊ = t / k := by
  rw [Nat.floor_div_nat, Nat.floor_natCast]

/-- When validation and the credential check pass and both geocodes
succeed, the handler body is `mainFlow`. -/
theorem travelCore_eq_mainFlow (departure destination mode : String)
    (keys : Keys) (env : Env) (p q : ℚ × ℚ)
    (hdep : departure ≠ "") (hdest : destination ≠ "")
    (hkey : keys.tmap ≠ "")
    (h1 : tmap_geocode departure keys.tmap env.depPayload = some p)
    (h2 : tmap_geocode destination keys.tmap env.destPayload = some q) :
    travelCore departure destination mode keys env
      = mainFlow departure destination mode keys env := by
  simp only [travelCore]
  rw [if_neg (not_or.mpr ⟨hdep, hdest⟩), if_neg hkey, h1, h2]

/-- Whatever the shaping outcome, the returned bundle's `car_info` is
the one computed by the drive block. -/
theorem mainFlow_car_info (departure destination mode : String)
    (keys : Keys) (env : Env) :
    (mainFlow departure destination mode keys env).raw.car_info
      = (carStage env.drive).1 := by
  simp only [mainFlow]
  split <;> rfl

/-- Whatever the shaping outcome, the returned bundle's `transit_steps`
are the ones computed by the transit block. -/
theorem mainFlow_transit_steps (departure destination mode : String)
    (keys : Keys) (env : Env) :
    (mainFlow departure destination mode keys env).raw.transit_steps
      = (transitStage env.transit).2.1 := by
  simp only [mainFlow]
  split <;> rfl

/-- The final error list is the post-block list, possibly extended by
the single no-route note. -/
theorem mainFlow_errors (departure destination mode : String)
    (keys : Keys) (env : Env) :
    ∃ extra,
      (mainFlow departure destination mode keys env).raw.errors
          = (rawOf departure destination mode keys env).errors ++ extra ∧
        (extra = [] ∨ extra = ["적절한 경로를 찾지 못했습니다."]) := by
  simp only [mainFlow]
  split
  · exact ⟨["적절한 경로를 찾지 못했습니다."], rfl, Or.inr rfl⟩
  · exact ⟨[], by simp, Or.inl rfl⟩

/-- Branch `mode == "car"` with a `car_info` present: the success return. -/
theorem mainFlow_car_some (departure destination : String) (keys : Keys)
    (env : Env) (ci : CarInfo) (h : (carStage env.drive).1 = some ci) :
    mainFlow departure destination "car" keys env
      = { duration := some (carShape departure destination ci).1,
          distance := some (carShape departure destination ci).2.1,
          steps := (carShape departure destination ci).2.2,
          raw := rawOf departure destination "car" keys env } := by
  simp only [mainFlow, shapedOf, if_pos rfl, h, Option.map_some]
  rfl

/-- Branch `mode == "walk"` with a `car_info` present: the success return. -/
theorem mainFlow_walk_some (departure destination : String) (keys : Keys)
    (env : Env) (ci : CarInfo) (h : (carStage env.drive).1 = some ci) :
    mainFlow departure destination "walk" keys env
      = { duration := some (walkShape departure destination ci).1,
          distance := some (walkShape departure destination ci).2.1,
          steps := (walkShape departure destination ci).2.2,
          raw := rawOf departure destination "walk" keys env } := by
  simp only [mainFlow, shapedOf, h, Option.map_some]
  rfl

/-- Branch `mode == "transit"` with a `transit_info` present: the success
return. -/
theorem mainFlow_transit_some (departure destination : String)
    (keys : Keys) (env : Env) (ti : TransitInfo)
    (h : (transitStage env.transit).1 = some ti) :
    mainFlow departure destination "transit" keys env
      = { duration :=
            some (transitShape (transitStage env.transit).2.1 ti).1,
          distance :=
            some (transitShape (transitStage env.transit).2.1 ti).2.1,
          steps := (transitShape (transitStage env.transit).2.1 ti).2.2,
          raw := rawOf departure destination "transit" keys env } := by
  simp only [mainFlow, shapedOf, h, Option.map_some]
  rfl

/-- No shaping branch fires: the no-route return. -/
theorem mainFlow_shaped_none (departure destination mode : String)
    (keys : Keys) (env : Env)
    (h : shapedOf mode departure destination (carStage env.drive).1
        (transitStage env.transit).1 (transitStage env.transit).2.1
        = none) :
    mainFlow departure destination mode keys env
      = { duration := none, distance := none, steps := [],
          raw := { rawOf departure destination mode keys env with
            errors := (rawOf departure destination mode keys env).errors
              ++ ["적절한 경로를 찾지 못했습니다."] } } := by
  simp only [mainFlow, h]

/-- The weather block appends either nothing or its one note. -/
theorem weatherStage_errs (key : String) (w : UpstreamResult Weather) :
    (weatherStage key w).2 = [] ∨ (weatherStage key w).2 = ["날씨 정보 조회 실패"] := by
  unfold weatherStage
  split
  · exact Or.inl rfl
  · cases w
    · exact Or.inl rfl
    · exact Or.inr rfl

/-- The transit block appends either nothing or its one note. -/
theorem transitStage_errs (t : UpstreamResult (List Itinerary)) :
    (transitStage t).2.2 = [] ∨ (transitStage t).2.2 = ["대중교통 경로 조회 실패"] := by
  cases t with
  | err => exact Or.inr rfl
  | ok l => cases l <;> exact Or.inl rfl

example :
    (travelGet baseReq baseKeys driveOkEnv).duration = some "약 40분" := by
  decide
example :
    (travelGet baseReq baseKeys driveOkEnv).distance = some "23.5 km" := by
  decide
example :
    (travelGet baseReq baseKeys driveOkEnv).raw.car_info
      = some { time_min := 40, distance_km10 := 235 } := by decide
example :
    (travelGet { baseReq with mode := some "walk" } baseKeys driveOkEnv).duration
      = some "약 352분" := by decide

/-! ## Claims -/

/-- C3: on every execution path the handler returns HTTP status 200 and
a JSON body whose keys are exactly `duration`, `distance`, `steps`,
`raw`; failure is communicated only inside the body (the embedding is a
total function, so no exception terminates the request). -/
theorem always_http200_with_fixed_keys (req : Req) (keys : Keys)
    (env : Env) :
    (handleGet req keys env).1 = 200 ∧
      (handleGet req keys env).2.map Prod.fst
        = ["duration", "distance", "steps", "raw"] :=
  ⟨rfl, rfl⟩

/-- C4: an empty or whitespace-only origin (after alias resolution) or
destination is terminal: `duration = null`, `distance = null`,
`steps = []`, the error note present, HTTP 200, and the result does not
depend on the environment of upstream calls (none is made). -/
theorem empty_endpoint_terminal (req : Req) (keys : Keys) (env : Env)
    (h : resolvedDeparture req = "" ∨ resolvedDestination req = "") :
    (travelGet req keys env).duration = none ∧
    (travelGet req keys env).distance = none ∧
    (travelGet req keys env).steps = [] ∧
    (travelGet req keys env).raw.errors = ["출발지와 도착지가 필요합니다."] ∧
    (∀ env' : Env, travelGet req keys env' = travelGet req keys env) ∧
    (handleGet req keys env).1 = 200 := by
  have hred : ∀ e : Env, travelGet req keys e =
      { duration := none, distance := none, steps := [],
        raw := { kakao_js_key := keys.kakao,
                 departure := resolvedDeparture req,
                 destination := resolvedDestination req,
                 mode := resolvedMode req,
                 weather := none, car_info := none, transit_info := none,
                 car_path := [], transit_steps := [],
                 errors := ["출발지와 도착지가 필요합니다."] } } := by
    intro e
    simp only [travelGet, travelCore]
    rw [if_pos h]
  exact ⟨by rw [hred], by rw [hred], by rw [hred], by rw [hred],
    fun e => by rw [hred, hred], rfl⟩

/-- A request whose origin is whitespace-only. -/
def wsReq : Req :=
  { origin := some "   ", departure := none,
    destination := some "경복궁", mode := none }

/-- Witness for C4 at a whitespace-only origin. -/
theorem empty_endpoint_terminal_witness :
    (travelGet wsReq baseKeys driveOkEnv).duration = none ∧
    (travelGet wsReq baseKeys driveOkEnv).steps = [] ∧
    (travelGet wsReq baseKeys driveOkEnv).raw.errors ≠ [] := by
  have h := empty_endpoint_terminal wsReq baseKeys driveOkEnv
    (Or.inl (by decide))
  exact ⟨h.1, h.2.2.1, by rw [h.2.2.2.1]; decide⟩

/-- Same request with an unrecognized mode. -/
def bikeReq : Req :=
  { origin := some "한신대", departure := none,
    destination := some "경복궁", mode := some "bike" }

/-- Same request without a mode parameter. -/
def noModeReq : Req :=
  { origin := some "한신대", departure := none,
    destination := some "경복궁", mode := none }

/-- C1 counterexample: with a drive route available, `mode=bike` does
NOT produce the `mode=car` response — the unrecognized mode falls
through every shaping branch to the no-route failure, so the claim
"the response equals the response mode=car would produce" is false. -/
theorem unrecognized_mode_not_treated_as_car :
    handleGet bikeReq baseKeys driveOkEnv
      ≠ handleGet baseReq baseKeys driveOkEnv := by
  decide

/-- C1 amended: `mode` defaults to `car` only when the parameter is
absent or empty; a present unrecognized mode is kept and matches no
shaping branch, so on every path the response has `duration = null`
and `distance = null`. -/
theorem mode_default_only_when_absent_or_empty (req : Req) (keys : Keys)
    (env : Env) :
    ((req.mode = none ∨ req.mode = some "") →
      handleGet req keys env
        = handleGet { req with mode := some "car" } keys env) ∧
    (resolvedMode req ∉ (["car", "transit", "walk"] : List String) →
      (travelGet req keys env).duration = none ∧
      (travelGet req keys env).distance = none) := by
  constructor
  · intro h
    have hr : resolvedMode req = "car" := by
      rcases h with h | h <;> (rw [resolvedMode, h]; decide)
    have hc : resolvedMode { req with mode := some "car" } = "car" := rfl
    simp only [handleGet, travelGet, hr, hc]
    rfl
  · intro hm
    have hcar : resolvedMode req ≠ "car" := fun e => hm (by simp [e])
    have htr : resolvedMode req ≠ "transit" := fun e => hm (by simp [e])
    have hwa : resolvedMode req ≠ "walk" := fun e => hm (by simp [e])
    simp only [travelGet, travelCore]
    by_cases hv : resolvedDeparture req = "" ∨ resolvedDestination req = ""
    · rw [if_pos hv]; exact ⟨rfl, rfl⟩
    · rw [if_neg hv]
      by_cases hk : keys.tmap = ""
      · rw [if_pos hk]; exact ⟨rfl, rfl⟩
      · rw [if_neg hk]
        rcases hg1 : tmap_geocode (resolvedDeparture req) keys.tmap
            env.depPayload with _ | p <;>
          rcases hg2 : tmap_geocode (resolvedDestination req) keys.tmap
              env.destPayload with _ | q
        · exact ⟨rfl, rfl⟩
        · exact ⟨rfl, rfl⟩
        · exact ⟨rfl, rfl⟩
        · have hsh : shapedOf (resolvedMode req) (resolvedDeparture req)
              (resolvedDestination req) (carStage env.drive).1
              (transitStage env.transit).1
              (transitStage env.transit).2.1 = none := by
            simp [shapedOf, hcar, htr, hwa]
          rw [mainFlow_shaped_none _ _ _ _ _ hsh]
          exact ⟨rfl, rfl⟩

/-- Witness for C1 amended: the absent mode behaves like `car`, the
unrecognized mode yields the empty result. -/
theorem mode_default_only_when_absent_or_empty_witness :
    handleGet noModeReq baseKeys driveOkEnv
      = handleGet { noModeReq with mode := some "car" } baseKeys driveOkEnv ∧
    (travelGet bikeReq baseKeys driveOkEnv).duration = none := by
  refine ⟨(mode_default_only_when_absent_or_empty noModeReq baseKeys
    driveOkEnv).1 (Or.inl rfl), ?_⟩
  exact ((mode_default_only_when_absent_or_empty bikeReq baseKeys
    driveOkEnv).2 (by decide)).1

/-- Same request asking for transit. -/
def transitReq : Req :=
  { origin := some "한신대", departure := none,
    destination := some "경복궁", mode := some "transit" }

/-- A leg-free transit itinerary. -/
def it0fix : Itinerary :=
  { totalTime := some 1800, totalDistance := some 5000,
    transferCount := some 0, pathType := some 1, legs := [] }

/-- Drive call succeeds with an empty feature list; transit succeeds. -/
def emptyDriveEnv : Env :=
  { depPayload := .withPoi okPoi, destPayload := .withPoi okPoi,
    weather := .err, drive := .ok [], transit := .ok [it0fix] }

/-- Drive call raises; transit returns nothing. -/
def driveErrEnv : Env :=
  { depPayload := .withPoi okPoi, destPayload := .withPoi okPoi,
    weather := .err, drive := .err, transit := .ok [] }

/-- C2 counterexample: the drive call succeeds with an empty feature
list during a transit request that itself succeeds: `car_info` is null,
yet the error list stays EMPTY — no user-facing note was appended for
the failed driving-route query, contrary to the claim. -/
theorem drive_empty_features_appends_no_note :
    (travelGet transitReq baseKeys emptyDriveEnv).raw.car_info = none ∧
    (travelGet transitReq baseKeys emptyDriveEnv).raw.errors = [] ∧
    (travelGet transitReq baseKeys emptyDriveEnv).duration ≠ none := by
  decide

/-- C2 amended: a driving-route failure by exception (network,
non-success status, body parse) yields no `car_info` and appends the
error note; a successful provider response — even with an empty or
missing feature list — never appends the note, and an empty feature
list still yields no `car_info`.  No exception propagates (the
embedding is total). -/
theorem drive_failure_note_only_on_exception (req : Req) (keys : Keys)
    (env : Env) (p q : ℚ × ℚ)
    (hdep : resolvedDeparture req ≠ "")
    (hdest : resolvedDestination req ≠ "")
    (hkey : keys.tmap ≠ "")
    (h1 : tmap_geocode (resolvedDeparture req) keys.tmap env.depPayload
        = some p)
    (h2 : tmap_geocode (resolvedDestination req) keys.tmap env.destPayload
        = some q) :
    (env.drive = .err →
      (travelGet req keys env).raw.car_info = none ∧
      "자동차 경로 조회 실패" ∈ (travelGet req keys env).raw.errors) ∧
    (env.drive = .ok [] →
      (travelGet req keys env).raw.car_info = none) ∧
    (∀ l, env.drive = .ok l →
      "자동차 경로 조회 실패" ∉ (travelGet req keys env).raw.errors) := by
  have hmf : travelGet req keys env
      = mainFlow (resolvedDeparture req) (resolvedDestination req)
          (resolvedMode req) keys env := by
    simp only [travelGet]
    exact travelCore_eq_mainFlow _ _ _ _ _ p q hdep hdest hkey h1 h2
  obtain ⟨extra, he, hex⟩ := mainFlow_errors (resolvedDeparture req)
    (resolvedDestination req) (resolvedMode req) keys env
  refine ⟨fun hdr => ⟨?_, ?_⟩, fun hdr => ?_, fun l hdr hmem => ?_⟩
  · rw [hmf, mainFlow_car_info, hdr]; rfl
  · rw [hmf, he]
    refine List.mem_append_left _ ?_
    show _ ∈ (weatherStage _ _).2 ++ (carStage env.drive).2.2 ++
      (transitStage _).2.2
    rw [hdr]
    simp [carStage]
  · rw [hmf, mainFlow_car_info, hdr]; rfl
  · rw [hmf, he] at hmem
    rcases List.mem_append.1 hmem with hm | hm
    · simp only [rawOf] at hm
      rw [hdr] at hm
      have hc : (carStage (.ok l : UpstreamResult (List DriveFeature))).2.2
          = ([] : List String) := rfl
      rw [hc] at hm
      rcases weatherStage_errs keys.openweather env.weather with hw | hw <;>
        rcases transitStage_errs env.transit with ht | ht <;>
          rw [hw, ht] at hm <;> exact absurd hm (by decide)
    · rcases hex with hex | hex <;> rw [hex] at hm <;>
        exact absurd hm (by decide)

/-- Witness for C2 amended: an exception in the drive call leaves
`car_info` null and appends the note. -/
theorem drive_failure_note_only_on_exception_witness :
    (travelGet baseReq baseKeys driveErrEnv).raw.car_info = none ∧
    "자동차 경로 조회 실패" ∈ (travelGet baseReq baseKeys driveErrEnv).raw.errors :=
  (drive_failure_note_only_on_exception baseReq baseKeys driveErrEnv
    (37, 127) (37, 127) (by decide) (by decide) (by decide) rfl rfl).1 rfl

/-- C5: when the drive call succeeds and its first feature carries
totals `totalTime = t` seconds and `totalDistance = d` meters, the
shaped `car_info` is `{time_min := t / 60, distance_km10 :=
roundTenths d}`, where `t / 60` is the integer floor of `t ÷ 60` and
`roundTenths d` (the km value at one decimal, scaled by 10) is within
half a tenth of `d / 1000` km (scaled: within 50 of `d / 100`). -/
theorem drive_totals_shaping (req : Req) (keys : Keys) (env : Env)
    (p q : ℚ × ℚ) (f0 : DriveFeature) (fs : List DriveFeature) (t d : ℕ)
    (hdep : resolvedDeparture req ≠ "")
    (hdest : resolvedDestination req ≠ "")
    (hkey : keys.tmap ≠ "")
    (h1 : tmap_geocode (resolvedDeparture req) keys.tmap env.depPayload
        = some p)
    (h2 : tmap_geocode (resolvedDestination req) keys.tmap env.destPayload
        = some q)
    (hdr : env.drive = .ok (f0 :: fs))
    (ht : f0.totalTime = some t) (hd : f0.totalDistance = some d) :
    (travelGet req keys env).raw.car_info
        = some { time_min := t / 60, distance_km10 := roundTenths d } ∧
    t / 60 = ⌊(t : ℚ) / ((60 : ℕ) : ℚ)⌋₊ ∧
    100 * roundTenths d ≤ d + 50 ∧ d ≤ 100 * roundTenths d + 50 := by
  refine ⟨?_, (natCast_div_floor t 60).symm, (roundTenths_close d).1,
    (roundTenths_close d).2⟩
  have hmf : travelGet req keys env
      = mainFlow (resolvedDeparture req) (resolvedDestination req)
          (resolvedMode req) keys env := by
    simp only [travelGet]
    exact travelCore_eq_mainFlow _ _ _ _ _ p q hdep hdest hkey h1 h2
  rw [hmf, mainFlow_car_info, hdr]
  simp [carStage, ht, hd]

/-- Witness for C5 at the spec's example totals: 2400 s and 23456 m
give 40 min and 23.5 km. -/
theorem drive_totals_shaping_witness :
    (travelGet baseReq baseKeys driveOkEnv).raw.car_info
      = some { time_min := 40, distance_km10 := 235 } := by
  have h := (drive_totals_shaping baseReq baseKeys driveOkEnv (37, 127)
    (37, 127) feat2400 [] 2400 23456 (by decide) (by decide) (by decide)
    rfl rfl rfl rfl rfl).1
  rw [h]
  decide

/-- Query `origin=한신대&destination=경복궁&mode=walk`. -/
def walkReq : Req :=
  { origin := some "한신대", departure := none,
    destination := some "경복궁", mode := some "walk" }

/-- A drive feature 8000 m long. -/
def feat8000 : DriveFeature :=
  { totalTime := some 3600, totalDistance := some 8000,
    geomType := none, coordinates := [] }

/-- Drive route of 8.0 km available. -/
def walk8Env : Env :=
  { depPayload := .withPoi okPoi, destPayload := .withPoi okPoi,
    weather := .err, drive := .ok [feat8000], transit := .ok [] }

/-- C7: in walk mode with a drive route available, the reported minutes
are `distance_km10 * 15 / 10`, which equals
`floor((distanceKm / 4) * 60)` — walking at 4 km/h over the driving
distance. -/
theorem walk_duration_from_drive_distance (req : Req) (keys : Keys)
    (env : Env) (p q : ℚ × ℚ) (f0 : DriveFeature) (fs : List DriveFeature)
    (hmode : resolvedMode req = "walk")
    (hdep : resolvedDeparture req ≠ "")
    (hdest : resolvedDestination req ≠ "")
    (hkey : keys.tmap ≠ "")
    (h1 : tmap_geocode (resolvedDeparture req) keys.tmap env.depPayload
        = some p)
    (h2 : tmap_geocode (resolvedDestination req) keys.tmap env.destPayload
        = some q)
    (hdr : env.drive = .ok (f0 :: fs)) :
    (travelGet req keys env).duration
        = some ("약 " ++
            toString (roundTenths (f0.totalDistance.getD 0) * 15 / 10)
            ++ "분") ∧
    roundTenths (f0.totalDistance.getD 0) * 15 / 10
        = ⌊((roundTenths (f0.totalDistance.getD 0) : ℚ) / 10) / 4 * 60⌋₊ := by
  constructor
  · have hmf : travelGet req keys env
        = mainFlow (resolvedDeparture req) (resolvedDestination req)
            "walk" keys env := by
      simp only [travelGet, hmode]
      exact travelCore_eq_mainFlow _ _ _ _ _ p q hdep hdest hkey h1 h2
    rw [hmf, mainFlow_walk_some _ _ _ _
      ⟨f0.totalTime.getD 0 / 60, roundTenths (f0.totalDistance.getD 0)⟩
      (by rw [hdr]; rfl)]
    rfl
  · have hcast : ((roundTenths (f0.totalDistance.getD 0) : ℚ) / 10) / 4 * 60
        = ((15 * roundTenths (f0.totalDistance.getD 0) : ℕ) : ℚ)
            / ((10 : ℕ) : ℚ) := by
      push_cast
      ring
    rw [hcast, natCast_div_floor]
    omega

/-- Witness for C7 at the spec's example distance: 8.0 km gives 120
minutes. -/
theorem walk_duration_from_drive_distance_witness :
    (travelGet walkReq baseKeys walk8Env).duration = some "약 120분" := by
  have h := (walk_duration_from_drive_distance walkReq baseKeys walk8Env
    (37, 127) (37, 127) feat8000 [] (by decide) (by decide) (by decide)
    (by decide) rfl rfl rfl).1
  rw [h]
  decide

/-- C10: a successful drive response whose first feature lacks both
totals defaults them to 0: `car_info` is `{time_min := 0,
distance_km10 := 0}`, and a car-mode request still succeeds with
`약 0분` / `0.0 km` — the no-suitable-route note is NOT appended. -/
theorem missing_totals_default_zero (req : Req) (keys : Keys) (env : Env)
    (p q : ℚ × ℚ) (f0 : DriveFeature) (fs : List DriveFeature)
    (hmode : resolvedMode req = "car")
    (hdep : resolvedDeparture req ≠ "")
    (hdest : resolvedDestination req ≠ "")
    (hkey : keys.tmap ≠ "")
    (h1 : tmap_geocode (resolvedDeparture req) keys.tmap env.depPayload
        = some p)
    (h2 : tmap_geocode (resolvedDestination req) keys.tmap env.destPayload
        = some q)
    (hdr : env.drive = .ok (f0 :: fs))
    (ht : f0.totalTime = none) (hd : f0.totalDistance = none) :
    (travelGet req keys env).raw.car_info
        = some { time_min := 0, distance_km10 := 0 } ∧
    (travelGet req keys env).duration = some "약 0분" ∧
    (travelGet req keys env).distance = some "0.0 km" ∧
    "적절한 경로를 찾지 못했습니다." ∉ (travelGet req keys env).raw.errors := by
  have hci : (carStage env.drive).1
      = some { time_min := 0, distance_km10 := 0 } := by
    rw [hdr]
    simp [carStage, ht, hd]
    decide
  have hmf : travelGet req keys env
      = mainFlow (resolvedDeparture req) (resolvedDestination req)
          "car" keys env := by
    simp only [travelGet, hmode]
    exact travelCore_eq_mainFlow _ _ _ _ _ p q hdep hdest hkey h1 h2
  rw [hmf, mainFlow_car_some _ _ _ _ _ hci]
  refine ⟨?_, rfl, rfl, ?_⟩
  · show (carStage env.drive).1 = _
    exact hci
  · show "적절한 경로를 찾지 못했습니다." ∉
      (weatherStage keys.openweather env.weather).2 ++
        (carStage env.drive).2.2 ++ (transitStage env.transit).2.2
    rw [hdr]
    have hc2 : (carStage (.ok (f0 :: fs) :
        UpstreamResult (List DriveFeature))).2.2 = ([] : List String) := rfl
    rw [hc2]
    rcases weatherStage_errs keys.openweather env.weather with hw | hw <;>
      rcases transitStage_errs env.transit with htt | htt <;>
        rw [hw, htt] <;> decide

/-- A drive feature with no totals at all. -/
def zeroFeat : DriveFeature :=
  { totalTime := none, totalDistance := none,
    geomType := none, coordinates := [] }

/-- First drive feature with no totals at all. -/
def zeroEnv : Env :=
  { depPayload := .withPoi okPoi, destPayload := .withPoi okPoi,
    weather := .err, drive := .ok [zeroFeat], transit := .ok [] }

/-- Witness for C10: missing totals yield the `약 0분` / `0.0 km`
success. -/
theorem missing_totals_default_zero_witness :
    (travelGet baseReq baseKeys zeroEnv).duration = some "약 0분" ∧
    (travelGet baseReq baseKeys zeroEnv).distance = some "0.0 km" := by
  have h := missing_totals_default_zero baseReq baseKeys zeroEnv (37, 127)
    (37, 127) zeroFeat [] (by decide) (by decide) (by decide) (by decide)
    rfl rfl rfl rfl rfl
  exact ⟨h.2.1, h.2.2.1⟩

/-- C9: when everything a car-mode result needs has succeeded, a
weather-lookup failure alone changes nothing: the response still
carries shaped duration, distance and steps (identical to what the same
request with a successful weather call returns), and only the non-fatal
weather note is recorded. -/
theorem weather_failure_keeps_car_result (req : Req) (keys : Keys)
    (env : Env) (p q : ℚ × ℚ) (f0 : DriveFeature) (fs : List DriveFeature)
    (w : Weather)
    (hmode : resolvedMode req = "car")
    (hdep : resolvedDeparture req ≠ "")
    (hdest : resolvedDestination req ≠ "")
    (hkey : keys.tmap ≠ "")
    (h1 : tmap_geocode (resolvedDeparture req) keys.tmap env.depPayload
        = some p)
    (h2 : tmap_geocode (resolvedDestination req) keys.tmap env.destPayload
        = some q)
    (hdr : env.drive = .ok (f0 :: fs))
    (hwkey : keys.openweather ≠ "") (hwe : env.weather = .err) :
    (∃ du, (travelGet req keys env).duration = some du) ∧
    (∃ di, (travelGet req keys env).distance = some di) ∧
    (travelGet req keys env).steps ≠ [] ∧
    "날씨 정보 조회 실패" ∈ (travelGet req keys env).raw.errors ∧
    (travelGet req keys { env with weather := .ok w }).duration
        = (travelGet req keys env).duration ∧
    (travelGet req keys { env with weather := .ok w }).distance
        = (travelGet req keys env).distance ∧
    (travelGet req keys { env with weather := .ok w }).steps
        = (travelGet req keys env).steps := by
  have hci : (carStage env.drive).1
      = some { time_min := f0.totalTime.getD 0 / 60,
               distance_km10 := roundTenths (f0.totalDistance.getD 0) } := by
    rw [hdr]
    rfl
  have hmf : travelGet req keys env
      = mainFlow (resolvedDeparture req) (resolvedDestination req)
          "car" keys env := by
    simp only [travelGet, hmode]
    exact travelCore_eq_mainFlow _ _ _ _ _ p q hdep hdest hkey h1 h2
  have hmf2 : travelGet req keys { env with weather := .ok w }
      = mainFlow (resolvedDeparture req) (resolvedDestination req)
          "car" keys { env with weather := .ok w } := by
    simp only [travelGet, hmode]
    exact travelCore_eq_mainFlow _ _ _ _ _ p q hdep hdest hkey h1 h2
  have hci2 : (carStage ({ env with weather := .ok w } : Env).drive).1
      = some { time_min := f0.totalTime.getD 0 / 60,
               distance_km10 := roundTenths (f0.totalDistance.getD 0) } := hci
  rw [hmf, hmf2, mainFlow_car_some _ _ _ _ _ hci,
    mainFlow_car_some _ _ _ _ _ hci2]
  refine ⟨⟨_, rfl⟩, ⟨_, rfl⟩, List.cons_ne_nil _ _, ?_, rfl, rfl, rfl⟩
  show "날씨 정보 조회 실패" ∈
    (weatherStage keys.openweather env.weather).2 ++
      (carStage env.drive).2.2 ++ (transitStage env.transit).2.2
  rw [hwe]
  have hws : (weatherStage keys.openweather
      (.err : UpstreamResult Weather)).2 = ["날씨 정보 조회 실패"] := by
    unfold weatherStage
    rw [if_neg hwkey]
  rw [hws]
  simp

/-- A weather payload for the comparison environment. -/
def w0 : Weather := { name := none, temp := 20, desc := "맑음" }

/-- Witness for C9: with all keys set and the weather call failing, the
note is recorded and the duration matches the weather-success run. -/
theorem weather_failure_keeps_car_result_witness :
    "날씨 정보 조회 실패" ∈ (travelGet baseReq allKeys driveOkEnv).raw.errors ∧
    (travelGet baseReq allKeys { driveOkEnv with weather := .ok w0 }).duration
      = (travelGet baseReq allKeys driveOkEnv).duration := by
  have h := weather_failure_keeps_car_result baseReq allKeys driveOkEnv
    (37, 127) (37, 127) feat2400 [] w0 (by decide) (by decide) (by decide)
    (by decide) rfl rfl rfl (by decide) rfl
  exact ⟨h.2.2.2.1, h.2.2.2.2.1⟩

/-- The label chosen for a leg's summary: the code's assoc-list lookup
with pass-through default agrees with the fixed six-entry table of the
spec (unrecognized modes keep the raw code, an absent mode renders as
Python `None`). -/
theorem legLabel_eq (m : Option String) :
    (m.map (fun s => (mode_ko_map.lookup s).getD s)).getD "None"
      = (if m = some "WALK" then "도보"
         else if m = some "BUS" then "버스"
         else if m = some "SUBWAY" then "지하철"
         else if m = some "EXPRESSBUS" then "고속버스"
         else if m = some "TRAIN" then "기차"
         else if m = some "FERRY" then "해운"
         else m.getD "None") := by
  cases m with
  | none => rfl
  | some s =>
    simp only [Option.map_some, Option.getD_some, Option.some.injEq,
      mode_ko_map, List.lookup]
    by_cases h1 : s = "WALK"
    · simp [h1]
    · by_cases h2 : s = "BUS"
      · simp [h1, h2]
      · by_cases h3 : s = "SUBWAY"
        · simp [h1, h2, h3]
        · by_cases h4 : s = "EXPRESSBUS"
          · simp [h1, h2, h3, h4]
          · by_cases h5 : s = "TRAIN"
            · simp [h1, h2, h3, h4, h5]
            · by_cases h6 : s = "FERRY"
              · simp [h1, h2, h3, h4, h5, h6]
              · simp only [Option.map_some', Option.getD_some]
                rw [beq_eq_false_iff_ne.mpr h1, beq_eq_false_iff_ne.mpr h2,
                  beq_eq_false_iff_ne.mpr h3, beq_eq_false_iff_ne.mpr h4,
                  beq_eq_false_iff_ne.mpr h5, beq_eq_false_iff_ne.mpr h6]
                simp [h1, h2, h3, h4, h5, h6]

/-- The summary string of every synthesized transit step, in leg order:
start name, arrow, end name, localized label, floor-divided minutes. -/
theorem transitStepsOf_summaries (legs : List Leg) :
    (transitStepsOf legs).map (fun s => s.summary)
      = legs.map (fun leg =>
          leg.startName.getD "" ++ " → " ++ leg.endName.getD "" ++ " (" ++
          (if leg.mode = some "WALK" then "도보"
           else if leg.mode = some "BUS" then "버스"
           else if leg.mode = some "SUBWAY" then "지하철"
           else if leg.mode = some "EXPRESSBUS" then "고속버스"
           else if leg.mode = some "TRAIN" then "기차"
           else if leg.mode = some "FERRY" then "해운"
           else leg.mode.getD "None") ++ ") 약 "
          ++ toString (leg.sectionTime.getD 0 / 60) ++ "분") := by
  suffices h : ∀ n : ℕ,
      ((List.enumFrom n legs).map (fun p => legStep (p.1 + 1) p.2)).map
          (fun s => s.summary)
        = legs.map (fun leg =>
            leg.startName.getD "" ++ " → " ++ leg.endName.getD "" ++ " (" ++
            (if leg.mode = some "WALK" then "도보"
             else if leg.mode = some "BUS" then "버스"
             else if leg.mode = some "SUBWAY" then "지하철"
             else if leg.mode = some "EXPRESSBUS" then "고속버스"
             else if leg.mode = some "TRAIN" then "기차"
             else if leg.mode = some "FERRY" then "해운"
             else leg.mode.getD "None") ++ ") 약 "
            ++ toString (leg.sectionTime.getD 0 / 60) ++ "분") from h 0
  induction legs with
  | nil => intro n; rfl
  | cons hd tl ih =>
    intro n
    simp only [List.enumFrom, List.map_cons]
    rw [ih (n + 1)]
    congr 1
    show (legStep (n + 1) hd).summary = _
    rw [show (legStep (n + 1) hd).summary
        = hd.startName.getD "" ++ " → " ++ hd.endName.getD "" ++ " (" ++
          (hd.mode.map (fun s => (mode_ko_map.lookup s).getD s)).getD "None"
          ++ ") 약 " ++ toString (hd.sectionTime.getD 0 / 60) ++ "분"
      from rfl]
    rw [legLabel_eq]

/-- C6: whenever the transit call succeeds with an itinerary, every
synthesized leg summary is
`<start> → <end> (<localized mode>) 약 <sectionTime / 60>분`, in leg
order, with the six fixed mode labels, raw pass-through for unrecognized
modes, and missing start/end names rendered as the empty string. -/
theorem transit_leg_summary_format (req : Req) (keys : Keys) (env : Env)
    (p q : ℚ × ℚ) (it0 : Itinerary) (rest : List Itinerary)
    (hdep : resolvedDeparture req ≠ "")
    (hdest : resolvedDestination req ≠ "")
    (hkey : keys.tmap ≠ "")
    (h1 : tmap_geocode (resolvedDeparture req) keys.tmap env.depPayload
        = some p)
    (h2 : tmap_geocode (resolvedDestination req) keys.tmap env.destPayload
        = some q)
    (htr : env.transit = .ok (it0 :: rest)) :
    ((travelGet req keys env).raw.transit_steps).map (fun s => s.summary)
      = it0.legs.map (fun leg =>
          leg.startName.getD "" ++ " → " ++ leg.endName.getD "" ++ " (" ++
          (if leg.mode = some "WALK" then "도보"
           else if leg.mode = some "BUS" then "버스"
           else if leg.mode = some "SUBWAY" then "지하철"
           else if leg.mode = some "EXPRESSBUS" then "고속버스"
           else if leg.mode = some "TRAIN" then "기차"
           else if leg.mode = some "FERRY" then "해운"
           else leg.mode.getD "None") ++ ") 약 "
          ++ toString (leg.sectionTime.getD 0 / 60) ++ "분") := by
  have hmf : travelGet req keys env
      = mainFlow (resolvedDeparture req) (resolvedDestination req)
          (resolvedMode req) keys env := by
    simp only [travelGet]
    exact travelCore_eq_mainFlow _ _ _ _ _ p q hdep hdest hkey h1 h2
  rw [hmf, mainFlow_transit_steps, htr]
  exact transitStepsOf_summaries it0.legs

/-- The spec's example leg. -/
def subwayLeg : Leg :=
  { mode := some "SUBWAY", sectionTime := some 300,
    startName := some "A역", endName := some "B역" }

/-- A one-leg itinerary around `subwayLeg`. -/
def legIt : Itinerary :=
  { totalTime := some 1800, totalDistance := some 5000,
    transferCount := some 0, pathType := some 1, legs := [subwayLeg] }

/-- Transit succeeds with the one-leg itinerary. -/
def transitLegEnv : Env :=
  { depPayload := .withPoi okPoi, destPayload := .withPoi okPoi,
    weather := .err, drive := .ok [], transit := .ok [legIt] }

/-- Witness for C6 at the spec's example leg: SUBWAY, A역 → B역,
300 s gives `약 5분`. -/
theorem transit_leg_summary_format_witness :
    ((travelGet transitReq baseKeys transitLegEnv).raw.transit_steps).map
        (fun s => s.summary)
      = ["A역 → B역 (지하철) 약 5분"] := by
  rw [transit_leg_summary_format transitReq baseKeys transitLegEnv
    (37, 127) (37, 127) legIt [] (by decide) (by decide) (by decide)
    rfl rfl rfl]
  decide

/-- A POI whose front fields are present but empty strings, with the
real coordinate in the `noor` fields — the shape Tmap actually sends
for some entries. -/
def falsyFrontPoi : Poi :=
  { frontLat := some (.jstr ""), frontlat := none,
    noorLat := some (.jnum 37), lat := none,
    frontLon := some (.jstr ""), frontlon := none,
    noorLon := some (.jnum 127), lon := none }

/-- C8 counterexample: on a payload whose `frontLat`/`frontLon` are
present but empty, the source skips them (Python `or` skips falsy
values) and resolves the `noor` coordinate, while the claim's
"first present value wins" rule would pick the empty string and fail
`float()` — the two disagree, so the claim as stated is false. -/
theorem geocode_not_first_present :
    tmap_geocode "A" "k" (.withPoi falsyFrontPoi)
      ≠ tmap_geocode_firstPresent "A" "k" (.withPoi falsyFrontPoi) := by
  decide

/-- C8 amended: the fallback order is `frontLat`, `frontlat`,
`noorLat`, `lat` (same pattern for longitude), but the first TRUTHY
value wins — a present null, empty-string or zero value is skipped; in
particular a payload carrying its coordinate only in `noorLat`/`noorLon`
(fronts empty) still resolves. -/
theorem geocode_first_truthy_fallback (k key : String) (va vb : JVal)
    (a b : ℚ) (hk : k ≠ "") (hkey : key ≠ "")
    (hta : va.truthy = true) (htb : vb.truthy = true)
    (ha : pyFloat va = some a) (hb : pyFloat vb = some b) :
    tmap_geocode k key (.withPoi
      { frontLat := some (.jstr ""), frontlat := none,
        noorLat := some va, lat := none,
        frontLon := some (.jstr ""), frontlon := none,
        noorLon := some vb, lon := none }) = some (a, b) := by
  have hlat : orChain [some (.jstr ""), none, some va, none] = some va := by
    show (if va.truthy = true then some va else orChain [none]) = some va
    rw [if_pos hta]
  have hlon : orChain [some (.jstr ""), none, some vb, none] = some vb := by
    show (if vb.truthy = true then some vb else orChain [none]) = some vb
    rw [if_pos htb]
  unfold tmap_geocode
  rw [if_neg (not_or.mpr ⟨hk, hkey⟩)]
  simp only [hlat, hlon, ha, hb]

/-- Witness for C8 amended: only the `noor` fields carry the (numeric)
coordinate; the empty front fields are skipped. -/
theorem geocode_first_truthy_fallback_witness :
    tmap_geocode "A" "k" (.withPoi falsyFrontPoi) = some (37, 127) :=
  geocode_first_truthy_fallback "A" "k" (.jnum 37) (.jnum 127) 37 127
    (by decide) (by decide) (by decide) (by decide) rfl rfl

end TripGPT
